import Mathlib

/-!
Verification development for the gold-price alert orchestration page.

The definitions below are a shallow embedding of the two source files:
`src/lib/fetchWrapper.ts` (the resilient call gateway) and the page module
(settings helpers, `parseAgentResult`, `buildCron`, `composeAgentMessage`,
`addEmail` / `removeEmail`, and the controller operations
`handleToggleSchedule`, `handleCheckNow`, `handleSaveSettings`).
JavaScript strings are modelled as Lean `String`, `JSON.parse` as an
executable JSON parser, and the regex match used by `parseAgentResult`
as an explicit scan over the character list.
-/

namespace GoldAlert

/-- A parsed JSON value.  Numbers keep their source lexeme: none of the
code inspects numeric magnitude, so the lexeme is a faithful carrier. -/
inductive Json where
  | null
  | bool (b : Bool)
  | num (lexeme : String)
  | str (s : String)
  | arr (elems : List Json)
  | obj (members : List (String × Json))
deriving Inhabited

/-- JSON whitespace accepted by `JSON.parse`: space, tab, newline, carriage
return. -/
def jsonWsChar (c : Char) : Bool :=
  c = ' ' || c = '\t' || c = '\n' || c = '\r'

/-- Drop leading JSON whitespace. -/
def skipWs : List Char → List Char
  | [] => []
  | c :: cs => if jsonWsChar c then skipWs cs else c :: cs

/-- Strip an expected literal spelling, returning the remainder. -/
def stripLit : List Char → List Char → Option (List Char)
  | [], cs => some cs
  | _ :: _, [] => none
  | l :: ls, c :: cs => if c = l then stripLit ls cs else none

/-- Value of a hexadecimal digit. -/
def hexVal (c : Char) : Option Nat :=
  if c.isDigit then some (c.toNat - 48)
  else if 'a' ≤ c ∧ c ≤ 'f' then some (c.toNat - 87)
  else if 'A' ≤ c ∧ c ≤ 'F' then some (c.toNat - 55)
  else none

/-- Four hex digits of a \u escape. -/
def parseHex4 : List Char → Option (Nat × List Char)
  | a :: b :: c :: d :: rest =>
    match hexVal a, hexVal b, hexVal c, hexVal d with
    | some va, some vb, some vc, some vd =>
      some (((va * 16 + vb) * 16 + vc) * 16 + vd, rest)
    | _, _, _, _ => none
  | _ => none

/-- Single-character JSON string escapes. -/
def escChar (e : Char) : Option Char :=
  if e = '"' then some '"'
  else if e = '\\' then some '\\'
  else if e = '/' then some '/'
  else if e = 'b' then some (Char.ofNat 8)
  else if e = 'f' then some (Char.ofNat 12)
  else if e = 'n' then some '\n'
  else if e = 'r' then some '\r'
  else if e = 't' then some '\t'
  else none

/-- Body of a JSON string after the opening quote: returns the decoded
content and the remainder after the closing quote. -/
def parseStringBody : Nat → List Char → Option (List Char × List Char)
  | 0, _ => none
  | _, [] => none
  | fuel + 1, c :: cs =>
    if c = '"' then some ([], cs)
    else if c = '\\' then
      match cs with
      | [] => none
      | 'u' :: cs2 =>
        match parseHex4 cs2 with
        | some (n, cs3) =>
          (parseStringBody fuel cs3).map (fun p => (Char.ofNat n :: p.1, p.2))
        | none => none
      | e :: cs2 =>
        match escChar e with
        | some ec => (parseStringBody fuel cs2).map (fun p => (ec :: p.1, p.2))
        | none => none
    else if c.toNat < 32 then none
    else (parseStringBody fuel cs).map (fun p => (c :: p.1, p.2))

/-- Longest digit prefix and the remainder. -/
def takeDigits : List Char → List Char × List Char
  | [] => ([], [])
  | c :: cs =>
    if c.isDigit then
      let p := takeDigits cs
      (c :: p.1, p.2)
    else ([], c :: cs)

/-- Optional fraction part of a JSON number. -/
def parseFrac : List Char → Option (List Char × List Char)
  | '.' :: r =>
    match takeDigits r with
    | ([], _) => none
    | (ds, r2) => some ('.' :: ds, r2)
  | cs => some (([] : List Char), cs)

/-- Optional exponent part of a JSON number. -/
def parseExp : List Char → Option (List Char × List Char)
  | [] => some ([], [])
  | c :: r =>
    if c = 'e' ∨ c = 'E' then
      let p : List Char × List Char :=
        match r with
        | '+' :: r2 => (['+'], r2)
        | '-' :: r2 => (['-'], r2)
        | _ => ([], r)
      match takeDigits p.2 with
      | ([], _) => none
      | (ds, r2) => some (c :: (p.1 ++ ds), r2)
    else some ([], c :: r)

/-- A JSON numeric literal: returns its lexeme and the remainder. -/
def parseNumber (cs : List Char) : Option (List Char × List Char) :=
  let p : List Char × List Char :=
    match cs with
    | '-' :: r => (['-'], r)
    | _ => ([], cs)
  match p.2 with
  | [] => none
  | c :: r =>
    if c = '0' ∨ c.isDigit then
      let ip : List Char × List Char :=
        if c = '0' then ([c], r)
        else
          let d := takeDigits r
          (c :: d.1, d.2)
      match parseFrac ip.2 with
      | none => none
      | some (fr, r2) =>
        match parseExp r2 with
        | none => none
        | some (ex, r3) => some (p.1 ++ ip.1 ++ fr ++ ex, r3)
    else none

mutual

/-- A JSON value, fuel-bounded recursive descent. -/
def parseJsonVal : Nat → List Char → Option (Json × List Char)
  | 0, _ => none
  | fuel + 1, cs =>
    match skipWs cs with
    | [] => none
    | c :: rest =>
      if c = 'n' then
        (stripLit ['u', 'l', 'l'] rest).map (fun r => (Json.null, r))
      else if c = 't' then
        (stripLit ['r', 'u', 'e'] rest).map (fun r => (Json.bool true, r))
      else if c = 'f' then
        (stripLit ['a', 'l', 's', 'e'] rest).map (fun r => (Json.bool false, r))
      else if c = '"' then
        (parseStringBody (fuel + 1) rest).map
          (fun p => (Json.str (String.mk p.1), p.2))
      else if c = '[' then
        match skipWs rest with
        | ']' :: r2 => some (Json.arr [], r2)
        | r1 =>
          (parseElements fuel r1).map (fun p => (Json.arr p.1, p.2))
      else if c = '{' then
        match skipWs rest with
        | '}' :: r2 => some (Json.obj [], r2)
        | r1 =>
          (parseMembers fuel r1).map (fun p => (Json.obj p.1, p.2))
      else if c = '-' ∨ c.isDigit then
        (parseNumber (c :: rest)).map
          (fun p => (Json.num (String.mk p.1), p.2))
      else none

/-- Comma-separated array elements up to the closing bracket. -/
def parseElements : Nat → List Char → Option (List Json × List Char)
  | 0, _ => none
  | fuel + 1, cs =>
    match parseJsonVal fuel cs with
    | none => none
    | some (v, r) =>
      match skipWs r with
      | ',' :: r2 =>
        (parseElements fuel r2).map (fun p => (v :: p.1, p.2))
      | ']' :: r2 => some ([v], r2)
      | _ => none

/-- Comma-separated object members up to the closing brace. -/
def parseMembers : Nat → List Char → Option (List (String × Json) × List Char)
  | 0, _ => none
  | fuel + 1, cs =>
    match skipWs cs with
    | '"' :: r =>
      match parseStringBody (fuel + 1) r with
      | none => none
      | some (key, r1) =>
        match skipWs r1 with
        | ':' :: r2 =>
          match parseJsonVal fuel r2 with
          | none => none
          | some (v, r3) =>
            match skipWs r3 with
            | ',' :: r4 =>
              (parseMembers fuel r4).map
                (fun p => ((String.mk key, v) :: p.1, p.2))
            | '}' :: r4 => some ([(String.mk key, v)], r4)
            | _ => none
        | _ => none
    | _ => none

end

/-- Model of `JSON.parse(s)`: the whole string must be one JSON value,
up to surrounding whitespace; `none` models a thrown `SyntaxError`. -/
def jsonParse (s : String) : Option Json :=
  match parseJsonVal (2 * s.data.length + 2) s.data with
  | some (v, rest) => if skipWs rest = [] then some v else none
  | none => none

/-- Suffix of the character list starting at its first opening brace. -/
def dropToOpen : List Char → Option (List Char)
  | [] => none
  | c :: cs => if c = '{' then some (c :: cs) else dropToOpen cs

/-- Prefix of the character list ending at its last closing brace. -/
def takeThruLastClose : List Char → Option (List Char)
  | [] => none
  | c :: cs =>
    match takeThruLastClose cs with
    | some t => some (c :: t)
    | none => if c = '}' then some [c] else none

/-- Model of `s.match(/\x7b[\s\S]*\x7d/)` returning the matched text: the
span from the first opening brace through the last closing brace of the
string, when a closing brace occurs after the first opening brace. -/
def jsBraceMatch (s : String) : Option String :=
  match dropToOpen s.data with
  | none => none
  | some [] => none
  | some (c :: rest) =>
    match takeThruLastClose rest with
    | some t => some (String.mk (c :: t))
    | none => none

/-- Interior of a brace span at nesting depth `d`, stopping at the brace
that closes the opening one. -/
def takeBalanced : Nat → List Char → Option (List Char)
  | _, [] => none
  | d, c :: cs =>
    if c = '{' then (takeBalanced (d + 1) cs).map (fun t => c :: t)
    else if c = '}' then
      if d = 1 then some [c]
      else (takeBalanced (d - 1) cs).map (fun t => c :: t)
    else (takeBalanced d cs).map (fun t => c :: t)

/-- Modelled from the spec: the first balanced brace-delimited span of the
string (from the first opening brace to its matching closing brace), the
extraction the normalizer claim describes. -/
def firstBalancedSpan (s : String) : Option String :=
  match dropToOpen s.data with
  | none => none
  | some [] => none
  | some (c :: rest) =>
    match takeBalanced 1 rest with
    | some t => some (String.mk (c :: t))
    | none => none

/-- A JavaScript runtime value as it can reach `parseAgentResult`:
`undef` and `jsNull` are `undefined` / `null`; `obj` is any non-null
value of typeof object (plain objects and arrays alike). -/
inductive JSVal where
  | undef
  | jsNull
  | bool (b : Bool)
  | num (n : Int)
  | str (s : String)
  | obj (j : Json)

/-- JavaScript falsiness of such a value (`!result`). -/
def jsFalsy : JSVal → Bool
  | .undef => true
  | .jsNull => true
  | .bool b => !b
  | .num n => n = 0
  | .str s => s = ""
  | .obj _ => false

/-- String branch of `parseAgentResult`: direct `JSON.parse`, then the
greedy brace-span regex match, then `JSON.parse` of the match. -/
def parseAgentString (s : String) : Option Json :=
  match jsonParse s with
  | some v => some v
  | none =>
    match jsBraceMatch s with
    | some sub => jsonParse sub
    | none => none

/-- The `parseAgentResult` helper: falsy input gives null; an object is
returned as-is; a string goes through the parse-then-extract fallback;
any other type gives null. -/
def parseAgentResult (result : JSVal) : Option Json :=
  if jsFalsy result then none
  else
    match result with
    | .obj j => some j
    | .str s => parseAgentString s
    | _ => none

/-- Split a character list at every occurrence of the separator, keeping
empty segments, as the JavaScript single-character `split` does. -/
def splitCharsOn (sep : Char) : List Char → List (List Char)
  | [] => [[]]
  | c :: cs =>
    let r := splitCharsOn sep cs
    if c = sep then [] :: r
    else
      match r with
      | h :: t => (c :: h) :: t
      | [] => [[c]]

/-- Model of the JavaScript `time.split(sep)` for a one-character
separator: an empty string yields one empty segment. -/
def jsSplit (s : String) (sep : Char) : List String :=
  (splitCharsOn sep s.data).map String.mk

/-- The `buildCron` helper: split the time on the colon, default a missing
hour to 9 and a missing minute to 0 with nullish coalescing, then build
the five-field cron expression by frequency. -/
def buildCron (frequency : String) (time : String) : String :=
  let parts := jsSplit time ':'
  let h := (parts[0]?).getD "9"
  let m := (parts[1]?).getD "0"
  match frequency with
  | "hourly" => m ++ " * * * *"
  | "daily" => m ++ " " ++ h ++ " * * *"
  | "weekly" => m ++ " " ++ h ++ " * * 1"
  | _ => m ++ " " ++ h ++ " * * *"

/-- Alert settings as held by the page; the frequency and unit fields are
string-typed unions in the source and are kept as strings. -/
structure AlertSettings where
  recipientEmails : List String
  frequency : String
  triggerTime : String
  timezone : String
  thresholdEnabled : Bool
  thresholdAbove : String
  thresholdBelow : String
  unit : String
deriving DecidableEq, Inhabited

/-- Default settings created on first load. -/
def DEFAULT_SETTINGS : AlertSettings :=
  { recipientEmails := []
    frequency := "daily"
    triggerTime := "09:00"
    timezone := "America/New_York"
    thresholdEnabled := false
    thresholdAbove := "2500"
    thresholdBelow := "2000"
    unit := "ounce" }

/-- Recipients clause of the composed message (the `emails` local of
`composeAgentMessage`). -/
def composeEmailsClause (settings : AlertSettings) : String :=
  if settings.recipientEmails.length > 0 then
    String.intercalate ", " settings.recipientEmails
  else "no recipients configured"

/-- Threshold clause of the composed message (the `thresholdLine` local of
`composeAgentMessage`), built from whichever bounds are non-empty. -/
def composeThresholdLine (settings : AlertSettings) : String :=
  if settings.thresholdEnabled then
    let unitLabel := if settings.unit = "gram" then "g" else "oz"
    let parts :=
      (if settings.thresholdAbove ≠ "" then
        ["above $" ++ settings.thresholdAbove ++ "/" ++ unitLabel]
       else []) ++
      (if settings.thresholdBelow ≠ "" then
        ["below $" ++ settings.thresholdBelow ++ "/" ++ unitLabel]
       else [])
    if parts.length > 0 then
      "Alert when price goes " ++ String.intercalate " or " parts
    else "No threshold configured"
  else "No threshold configured"

/-- The `composeAgentMessage` helper: recipients clause, threshold clause
and the fixed template. -/
def composeAgentMessage (settings : AlertSettings) : String :=
  "Fetch current gold prices and send an alert email.\nRecipients: " ++
    composeEmailsClause settings ++ "\nThreshold: " ++
    composeThresholdLine settings ++ "\nUnit preference: " ++
    settings.unit

/-- Model of the JavaScript `input.trim()`: drop whitespace from both
ends of the character list. -/
def jsTrim (s : String) : String :=
  String.mk
    (((s.data.dropWhile Char.isWhitespace).reverse.dropWhile
      Char.isWhitespace).reverse)

/-- The settings tab `addEmail` handler, restricted to its effect on the
recipient list: trim the input, ignore empty input, append only when the
trimmed email contains an at-sign and is not already present. -/
def addEmail (emails : List String) (input : String) : List String :=
  let email := jsTrim input
  if email = "" then emails
  else if email.data.contains '@' ∧ ¬ email ∈ emails then emails ++ [email]
  else emails

/-- The settings tab `removeEmail` handler: keep every entry different
from the removed address. -/
def removeEmail (emails : List String) (email : String) : List String :=
  emails.filter (fun e => e ≠ email)

/-! The resilient call gateway (`src/lib/fetchWrapper.ts`). -/

/-- The observable part of a fetch response: the redirect flag, the final
url, and the status code. -/
structure FetchResponse where
  redirected : Bool
  url : String
  status : Nat
deriving DecidableEq

/-- Outcome of the underlying `fetch`: either the promise rejects (a
network failure) or a response arrives. -/
inductive FetchOutcome where
  | networkError
  | response (r : FetchResponse)
deriving DecidableEq

/-- Side effects the gateway can perform on the browser. -/
inductive GatewayEffect where
  | navigate (url : String)
  | confirmPrompt (message : String)
  | reload
deriving DecidableEq

/-- Prompt text shown when the backend answers with a server error. -/
def serverErrorPrompt : String :=
  "Backend is not responding.\n\n.Click OK to refresh, if you are seeing this repeatedly ask Architect to fix errors in the app."

/-- Prompt text shown when the request could not reach the backend. -/
def networkErrorPrompt : String :=
  "Cannot connect to backend.\n\nClick OK to refresh, if you are seeing this repeatedly ask Architect to fix errors in the app."

/-- The `fetchWrapper` gateway: `confirmAccept` is the user's answer to
the `confirm` prompt; the result is the value returned to the caller
(`none` models `undefined`) together with the browser effects performed. -/
def fetchWrapper (outcome : FetchOutcome) (confirmAccept : Bool) :
    Option FetchResponse × List GatewayEffect :=
  match outcome with
  | .networkError =>
    (none, [.confirmPrompt networkErrorPrompt] ++
      if confirmAccept then [.reload] else [])
  | .response r =>
    if r.redirected then (none, [.navigate r.url])
    else if r.status ≥ 500 then
      (none, [.confirmPrompt serverErrorPrompt] ++
        if confirmAccept then [.reload] else [])
    else (some r, [])

/-! The orchestration controller (`Page` in the page module). -/

/-- Fixed identifier of the manager agent. -/
def MANAGER_AGENT_ID : String := "6997285ac4e47cc7968fd581"

/-- Initial managed schedule identifier baked into the page. -/
def INITIAL_SCHEDULE_ID : String := "69972860399dfadeac37b79a"

/-- A schedule record as observed from the scheduler service. -/
structure Schedule where
  id : String
  is_active : Bool
  cron_expression : String
  next_run_time : Option String
  last_run_at : Option String
deriving DecidableEq, Inhabited

/-- One execution-history record from the scheduler. -/
structure ExecutionLog where
  id : String
  schedule_id : String
  executed_at : String
  attempt : Nat
  max_attempts : Nat
  success : Bool
  payload_message : String
  response_status : Nat
  response_output : String
  error_message : Option String
deriving DecidableEq

/-- Kind of a transient notification. -/
inductive NotifKind where
  | success
  | error
deriving DecidableEq

/-- A transient user-facing notification. -/
structure Notification where
  kind : NotifKind
  message : String
deriving DecidableEq

/-- The controller's state: the React state of the page plus the two
persisted local-storage slots and the activity-stream processing flag. -/
structure ControllerState where
  settings : AlertSettings
  schedule : Option Schedule
  scheduleLoading : Bool
  logs : List ExecutionLog
  logsLoading : Bool
  lastResult : Option Json
  checkNowLoading : Bool
  saving : Bool
  notification : Option Notification
  scheduleId : String
  sessionId : Option String
  activeAgentId : Option String
  processing : Bool
  storedSettings : Option AlertSettings
  storedScheduleId : Option String

/-- Result of `getSchedule`. -/
structure GetScheduleRes where
  success : Bool
  schedule : Option Schedule
deriving DecidableEq

/-- Result of `createSchedule`. -/
structure CreateScheduleRes where
  success : Bool
  schedule : Option Schedule
  error : Option String
deriving DecidableEq

/-- Agent response wrapper carrying the raw result payload. -/
structure AgentResponse where
  result : JSVal

/-- Resolved value of `callAIAgent`. -/
structure AgentCallRes where
  success : Bool
  session_id : Option String
  response : Option AgentResponse
  error : Option String

/-- Environment for one toggle run: outcomes of the pause, resume and get
calls; `Except.error` models a rejected promise. -/
structure ToggleEnv where
  pauseRes : Except Unit Unit
  resumeRes : Except Unit Unit
  getRes : Except Unit GetScheduleRes

/-- Environment for one save run. -/
structure SaveEnv where
  deleteRes : Except Unit Unit
  createRes : Except Unit CreateScheduleRes

/-- Environment for one check-now run; `none` inside `ok` models the call
resolving to `undefined`. -/
structure CheckEnv where
  callRes : Except Unit (Option AgentCallRes)

/-- Remote calls issued by a controller operation, in order. -/
inductive ScheduleCall where
  | pause (id : String)
  | resume (id : String)
  | get (id : String)
  | delete (id : String)
  | create (agent_id : String) (cron_expression : String)
      (message : String) (timezone : String)
deriving DecidableEq

/-- The `handleToggleSchedule` operation: no-op without a loaded schedule;
otherwise pause or resume by the displayed activity flag, re-fetch, adopt
the fetched schedule when available, and notify; any rejection is caught
and turned into an error notification. -/
def handleToggleSchedule (env : ToggleEnv) (s : ControllerState) :
    ControllerState × List ScheduleCall :=
  match s.schedule with
  | none => (s, [])
  | some sch =>
    let s1 := { s with scheduleLoading := true }
    let toggleCall :=
      if sch.is_active then ScheduleCall.pause s.scheduleId
      else ScheduleCall.resume s.scheduleId
    let toggleRes := if sch.is_active then env.pauseRes else env.resumeRes
    match toggleRes with
    | .error _ =>
      ({ s1 with
          notification := some ⟨.error, "Failed to update schedule status"⟩,
          scheduleLoading := false }, [toggleCall])
    | .ok _ =>
      match env.getRes with
      | .error _ =>
        ({ s1 with
            notification := some ⟨.error, "Failed to update schedule status"⟩,
            scheduleLoading := false },
          [toggleCall, .get s.scheduleId])
      | .ok g =>
        let s2 :=
          if g.success then
            match g.schedule with
            | some sch2 => { s1 with schedule := some sch2 }
            | none => s1
          else s1
        ({ s2 with
            notification := some ⟨.success,
              if sch.is_active then "Schedule paused" else "Schedule resumed"⟩,
            scheduleLoading := false },
          [toggleCall, .get s.scheduleId])

/-- Whether a JSON numeric literal denotes zero: no nonzero digit occurs
in its mantissa (sign, zeros and the exponent part do not matter). -/
def jsonNumIsZero (lexeme : String) : Bool :=
  (lexeme.data.takeWhile (fun c => c ≠ 'e' ∧ c ≠ 'E')).all
    (fun c => ¬ ('1' ≤ c ∧ c ≤ '9'))

/-- JavaScript truthiness of a parsed JSON value, used by the `if`
guards on normalized results: null, false, numeric zero and the empty
string are falsy. -/
def jsTruthyJson : Json → Bool
  | .null => false
  | .bool b => b
  | .num lexeme => ¬ jsonNumIsZero lexeme
  | .str s => s ≠ ""
  | .arr _ => true
  | .obj _ => true

/-- The `handleCheckNow` operation: compose the message, invoke the agent,
record the session id when present and non-empty, normalize the result,
and set the notification by outcome; the loading, active-agent and
processing flags are cleared unconditionally afterwards. -/
def handleCheckNow (env : CheckEnv) (s : ControllerState) : ControllerState :=
  let s1 := { s with
    checkNowLoading := true,
    activeAgentId := some MANAGER_AGENT_ID,
    processing := true }
  let s2 :=
    match env.callRes with
    | .error _ =>
      { s1 with
          notification :=
            some ⟨.error, "Network error while checking gold price"⟩ }
    | .ok res =>
      let s15 :=
        match res.bind (fun r => r.session_id) with
        | some sid =>
          if sid = "" then s1 else { s1 with sessionId := some sid }
        | none => s1
      match res with
      | some r =>
        if r.success then
          let raw :=
            match r.response with
            | some resp => resp.result
            | none => JSVal.undef
          match parseAgentResult raw with
          | some parsed =>
            if jsTruthyJson parsed then
              { s15 with
                  lastResult := some parsed,
                  notification := some ⟨.success,
                    "Gold price check completed successfully"⟩ }
            else
              { s15 with notification := some ⟨.success,
                  "Agent responded. Check results below."⟩ }
          | none =>
            { s15 with notification := some ⟨.success,
                "Agent responded. Check results below."⟩ }
        else
          { s15 with notification := some ⟨.error,
              r.error.getD "Failed to check gold price"⟩ }
      | none =>
        { s15 with notification := some ⟨.error,
            "Failed to check gold price"⟩ }
  { s2 with
      checkNowLoading := false,
      activeAgentId := none,
      processing := false }

/-- Actions performed by a save run, in order: the local persistence
writes and the remote calls. -/
inductive SaveAction where
  | persistSettings (settings : AlertSettings)
  | remote (call : ScheduleCall)
  | persistScheduleId (id : String)
deriving DecidableEq

/-- The `handleSaveSettings` operation: persist settings locally, delete
the old schedule ignoring its outcome, create the replacement, and adopt
and persist the new identifier exactly when the create returns success
with a schedule; a rejected create is caught into an error notification. -/
def handleSaveSettings (env : SaveEnv) (s : ControllerState) :
    ControllerState × List SaveAction :=
  let s1 := { s with saving := true }
  let s2 := { s1 with storedSettings := some s.settings }
  let newCron := buildCron s.settings.frequency s.settings.triggerTime
  let message := composeAgentMessage s.settings
  let tr : List SaveAction :=
    [.persistSettings s.settings,
     .remote (.delete s.scheduleId),
     .remote (.create MANAGER_AGENT_ID newCron message s.settings.timezone)]
  match env.createRes with
  | .error _ =>
    ({ s2 with
        notification := some ⟨.error, "Error saving configuration"⟩,
        saving := false }, tr)
  | .ok r =>
    if r.success then
      match r.schedule with
      | some sch =>
        ({ s2 with
            scheduleId := sch.id,
            storedScheduleId := some sch.id,
            schedule := some sch,
            notification := some ⟨.success,
              "Configuration saved and schedule updated"⟩,
            saving := false },
          tr ++ [.persistScheduleId sch.id])
      | none =>
        ({ s2 with
            notification := some ⟨.error,
              r.error.getD "Failed to update schedule"⟩,
            saving := false }, tr)
    else
      ({ s2 with
          notification := some ⟨.error,
            r.error.getD "Failed to update schedule"⟩,
          saving := false }, tr)

/-! Concrete fixtures used by the witness theorems. -/

/-- A loaded, active schedule. -/
def sampleSchedule : Schedule :=
  { id := "sch-old"
    is_active := true
    cron_expression := "0 9 * * *"
    next_run_time := none
    last_run_at := none }

/-- The schedule returned by a successful create. -/
def newSchedule : Schedule :=
  { id := "sch-new"
    is_active := true
    cron_expression := "30 09 * * *"
    next_run_time := none
    last_run_at := none }

/-- The schedule as returned by the fresh get after a pause. -/
def pausedSchedule : Schedule :=
  { sampleSchedule with is_active := false }

/-- A controller state with the sample schedule loaded. -/
def baseState : ControllerState :=
  { settings := DEFAULT_SETTINGS
    schedule := some sampleSchedule
    scheduleLoading := false
    logs := []
    logsLoading := false
    lastResult := none
    checkNowLoading := false
    saving := false
    notification := none
    scheduleId := "sch-old"
    sessionId := none
    activeAgentId := none
    processing := false
    storedSettings := none
    storedScheduleId := none }

/-- A save environment whose create call succeeds with `newSchedule`. -/
def saveEnvOk : SaveEnv :=
  { deleteRes := .ok ()
    createRes := .ok { success := true, schedule := some newSchedule, error := none } }

/-- A toggle environment whose calls all succeed and whose fresh get
returns the paused schedule. -/
def toggleEnvOk : ToggleEnv :=
  { pauseRes := .ok ()
    resumeRes := .ok ()
    getRes := .ok { success := true, schedule := some pausedSchedule } }

/-- A plain successful, non-redirected fetch response. -/
def okResponse : FetchResponse :=
  { redirected := false, url := "/api", status := 200 }

/-- A redirected fetch response, as after a session expiry. -/
def redirectedResponse : FetchResponse :=
  { redirected := true, url := "/login", status := 200 }

/-!
Claim theorems.
-/

/-- C2: the resilient call gateway never throws: a redirected response
navigates to the redirect target and yields no result; a status of 500 or
more prompts for a reload and yields no result whatever the user answers;
a network failure prompts and yields no result; and a non-redirected
response below 500 is returned to the caller unchanged, with no browser
effect. -/
theorem C2_fetchWrapper_never_throws (r : FetchResponse) (accept : Bool) :
    (r.redirected = true →
      fetchWrapper (.response r) accept = (none, [.navigate r.url])) ∧
    (r.redirected = false → 500 ≤ r.status →
      fetchWrapper (.response r) accept =
        (none, [.confirmPrompt serverErrorPrompt] ++
          if accept then [.reload] else [])) ∧
    (fetchWrapper .networkError accept =
      (none, [.confirmPrompt networkErrorPrompt] ++
        if accept then [.reload] else [])) ∧
    (r.redirected = false → r.status < 500 →
      fetchWrapper (.response r) accept = (some r, [])) := by
  refine ⟨fun hr => ?_, fun hr h5 => ?_, rfl, fun hr h5 => ?_⟩
  · simp [fetchWrapper, hr]
  · simp [fetchWrapper, hr, h5]
  · simp [fetchWrapper, hr, Nat.not_le.mpr h5]

/-- C2 witness: a concrete 200 response is returned unchanged. -/
theorem C2_fetchWrapper_witness :
    fetchWrapper (.response okResponse) false = (some okResponse, []) ∧
    fetchWrapper (.response redirectedResponse) false =
      (none, [.navigate "/login"]) :=
  ⟨(C2_fetchWrapper_never_throws okResponse false).2.2.2 rfl (by decide),
   (C2_fetchWrapper_never_throws redirectedResponse false).1 rfl⟩

/-- C4: the normalizer returns every object input unchanged, returns null
for null and undefined, and returns null for numbers and booleans. -/
theorem C4_normalize_by_type :
    (∀ j : Json, parseAgentResult (.obj j) = some j) ∧
    parseAgentResult .undef = none ∧
    parseAgentResult .jsNull = none ∧
    (∀ b : Bool, parseAgentResult (.bool b) = none) ∧
    (∀ n : Int, parseAgentResult (.num n) = none) := by
  refine ⟨fun j => rfl, rfl, rfl, fun b => by cases b <;> rfl, fun n => ?_⟩
  simp only [parseAgentResult, jsFalsy]
  split <;> rfl

/-- C5 counterexample: the daily cron expression keeps the leading zero of
the hour, so `buildCron "daily" "09:30"` is `"30 09 * * *"`, not the
claimed `"30 9 * * *"`. -/
theorem C5_cex_daily_keeps_leading_zero :
    buildCron "daily" "09:30" = "30 09 * * *" ∧
    buildCron "daily" "09:30" ≠ "30 9 * * *" := by
  exact ⟨rfl, by decide⟩

/-- C5 amended: the exact cron equations as the code produces them: the
hour substring of the time is interpolated verbatim, leading zero
included. -/
theorem C5_buildCron_equations :
    buildCron "hourly" "09:30" = "30 * * * *" ∧
    buildCron "daily" "09:30" = "30 09 * * *" ∧
    buildCron "weekly" "09:30" = "30 09 * * 1" :=
  ⟨rfl, rfl, rfl⟩

/-- C6: at the failing input `buildCron "daily" ""` the split yields one
empty segment, the nullish default for the hour does not fire (the hour
is the empty string, not undefined), and the result is `"0  * * *"` with
an empty hour field — not the documented `"0 9 * * *"`.  The minute
default and the unknown-frequency fallback do behave as claimed. -/
theorem C6_buildCron_empty_time_bug :
    buildCron "daily" "" = "0  * * *" ∧
    buildCron "daily" "" ≠ "0 9 * * *" ∧
    (∀ t : String, buildCron "someUnknownFrequency" t = buildCron "daily" t) :=
  ⟨rfl, by decide, fun t => rfl⟩

/-- C8: composing with no recipients mentions "no recipients configured";
with the threshold enabled, only the upper bound "2500" set and the ounce
unit, the threshold clause reads "above $2500/oz"; and with the threshold
enabled but both bounds empty the message equals the disabled-threshold
message. -/
theorem C8_composeAgentMessage (s : AlertSettings) :
    (s.recipientEmails = [] →
      ∃ a b, composeAgentMessage s = a ++ "no recipients configured" ++ b) ∧
    (s.thresholdEnabled = true → s.thresholdAbove = "2500" →
      s.thresholdBelow = "" → s.unit = "ounce" →
      ∃ a b, composeAgentMessage s = a ++ "above $2500/oz" ++ b) ∧
    (s.thresholdAbove = "" → s.thresholdBelow = "" →
      composeAgentMessage { s with thresholdEnabled := true } =
        composeAgentMessage { s with thresholdEnabled := false }) := by
  refine ⟨fun h => ?_, fun h1 h2 h3 h4 => ?_, fun h2 h3 => ?_⟩
  · have hcl : composeEmailsClause s = "no recipients configured" := by
      simp [composeEmailsClause, h]
    refine ⟨"Fetch current gold prices and send an alert email.\nRecipients: ",
      "\nThreshold: " ++ (composeThresholdLine s ++
        ("\nUnit preference: " ++ s.unit)), ?_⟩
    unfold composeAgentMessage
    rw [hcl]
    simp only [String.append_assoc]
  · have htl : composeThresholdLine s =
        "Alert when price goes " ++ "above $2500/oz" := by
      simp [composeThresholdLine, h1, h2, h3, h4]
      rfl
    refine ⟨"Fetch current gold prices and send an alert email.\nRecipients: " ++
      (composeEmailsClause s ++ ("\nThreshold: " ++ "Alert when price goes ")),
      "\nUnit preference: " ++ s.unit, ?_⟩
    unfold composeAgentMessage
    rw [htl]
    simp only [String.append_assoc]
  · obtain ⟨re, fr, tt, tz, te, ta, tb, u⟩ := s
    simp only at h2 h3
    subst h2 h3
    simp [composeAgentMessage, composeEmailsClause, composeThresholdLine]

/-- C8 witness: the default settings have no recipients and so compose to
a message mentioning "no recipients configured". -/
theorem C8_composeAgentMessage_witness :
    ∃ a b, composeAgentMessage DEFAULT_SETTINGS =
      a ++ "no recipients configured" ++ b :=
  (C8_composeAgentMessage DEFAULT_SETTINGS).1 rfl

/-- C9: starting from a duplicate-free recipient list, adding an email
appends the trimmed input exactly when it is non-empty, contains an
at-sign and is not yet present, and otherwise leaves the list unchanged;
removal drops every occurrence of the address; both operations preserve
freedom from duplicates. -/
theorem C9_recipients_nodup (emails : List String) (input email : String)
    (h : emails.Nodup) :
    (addEmail emails input).Nodup ∧
    (removeEmail emails email).Nodup ∧
    (jsTrim input = "" → addEmail emails input = emails) ∧
    (jsTrim input ≠ "" → (jsTrim input).data.contains '@' = true →
      jsTrim input ∉ emails →
      addEmail emails input = emails ++ [jsTrim input]) ∧
    (¬ (jsTrim input).data.contains '@' = true ∨ jsTrim input ∈ emails →
      addEmail emails input = emails) ∧
    email ∉ removeEmail emails email := by
  refine ⟨?_, h.filter _, fun he => by simp [addEmail, he], fun he hc hm => ?_,
    fun hcm => ?_, ?_⟩
  · simp only [addEmail]
    split
    · exact h
    split
    · rename_i hcond
      rw [List.nodup_append]
      exact ⟨h, List.nodup_singleton _, by
        simp only [List.disjoint_singleton]
        exact hcond.2⟩
    · exact h
  · have hc2 : '@' ∈ (jsTrim input).data := by simpa using hc
    simp [addEmail, he, hc2, hm]
  · simp only [addEmail]
    split
    · rfl
    split
    · rename_i hcond
      rcases hcm with hnc | hm
      · exact absurd hcond.1 hnc
      · exact absurd hm hcond.2
    · rfl
  · simp [removeEmail, List.mem_filter]

/-- Helper: a prefix without an opening brace does not affect where the
brace scan starts. -/
theorem dropToOpen_append (xs ys : List Char) (h : '{' ∉ xs) :
    dropToOpen (xs ++ ys) = dropToOpen ys := by
  induction xs with
  | nil => rfl
  | cons c t ih =>
    have hc : c ≠ '{' := fun he => h (he ▸ List.mem_cons_self c t)
    simp only [List.cons_append, dropToOpen, if_neg (fun he => hc he)]
    exact ih (fun hm => h (List.mem_cons_of_mem c hm))

/-- Helper: with no closing brace in the list, the scan for the last
closing brace fails. -/
theorem takeThruLastClose_eq_none (ys : List Char) (h : '}' ∉ ys) :
    takeThruLastClose ys = none := by
  induction ys with
  | nil => rfl
  | cons c t ih =>
    have hc : c ≠ '}' := fun he => h (he ▸ List.mem_cons_self c t)
    have ht := ih (fun hm => h (List.mem_cons_of_mem c hm))
    simp only [takeThruLastClose, ht, if_neg (fun he => hc he)]

/-- Helper: when the left part ends in a closing brace and the right part
has none, the scan through the last closing brace returns exactly the
left part. -/
theorem takeThruLastClose_append (xs ys : List Char) (hne : xs ≠ [])
    (hlast : xs.getLast? = some '}') (hy : '}' ∉ ys) :
    takeThruLastClose (xs ++ ys) = some xs := by
  induction xs with
  | nil => exact absurd rfl hne
  | cons c t ih =>
    cases t with
    | nil =>
      have hc : c = '}' := by simpa using hlast
      subst hc
      show takeThruLastClose (Char.ofNat 125 :: ys) = some [Char.ofNat 125]
      have step : takeThruLastClose (Char.ofNat 125 :: ys) =
          match takeThruLastClose ys with
          | some t => some (Char.ofNat 125 :: t)
          | none =>
            if Char.ofNat 125 = '}' then some [Char.ofNat 125] else none := rfl
      rw [step, takeThruLastClose_eq_none ys hy]
      rfl
    | cons c2 t2 =>
      have hlast2 : (c2 :: t2).getLast? = some '}' := by
        rwa [List.getLast?_cons_cons] at hlast
      have ih2 := ih (by simp) hlast2
      simp only [List.cons_append] at ih2
      show takeThruLastClose (c :: c2 :: (t2 ++ ys)) = some (c :: c2 :: t2)
      have step : takeThruLastClose (c :: c2 :: (t2 ++ ys)) =
          match takeThruLastClose (c2 :: (t2 ++ ys)) with
          | some t => some (c :: t)
          | none => if c = '}' then some [c] else none := rfl
      rw [step, ih2]

/-- C3 counterexample: on the string consisting of one valid JSON object
followed by a stray closing brace, the code's greedy first-to-last brace
match is unparseable and the normalizer returns null, while the first
balanced brace span is the valid object, which parses. -/
theorem C3_cex_not_first_balanced :
    parseAgentResult (.str "\x7b\x22a\x22:1\x7d\x7d") = none ∧
    firstBalancedSpan "\x7b\x22a\x22:1\x7d\x7d" = some "\x7b\x22a\x22:1\x7d" ∧
    jsonParse "\x7b\x22a\x22:1\x7d" = some (Json.obj [("a", Json.num "1")]) :=
  ⟨rfl, rfl, rfl⟩

/-- C3 amended: the normalizer (a total function, so it never throws)
first attempts a direct parse, and on failure parses the span from the
first opening brace through the last closing brace of the string; in
particular a single valid JSON object preceded by prose without an
opening brace and followed by prose without a closing brace is recovered
and parsed. -/
theorem C3_normalize_string_extraction :
    (∀ s v, jsonParse s = some v → parseAgentResult (.str s) = some v) ∧
    (∀ p j q v, '{' ∉ p.data → '}' ∉ q.data →
      j.data.head? = some '{' → j.data.getLast? = some '}' →
      jsonParse j = some v → jsonParse (p ++ j ++ q) = none →
      parseAgentResult (.str (p ++ j ++ q)) = some v) := by
  constructor
  · intro s v hjp
    have hne : s ≠ "" := by
      intro he
      subst he
      exact Option.noConfusion hjp
    simp [parseAgentResult, jsFalsy, hne, parseAgentString, hjp]
  · intro p j q v hp hq hhead hlast hj hfail
    obtain ⟨jrest, hd⟩ : ∃ t, j.data = '{' :: t := by
      cases hjd : j.data with
      | nil => rw [hjd] at hhead; exact Option.noConfusion hhead
      | cons c0 t =>
        rw [hjd] at hhead
        simp only [List.head?_cons, Option.some.injEq] at hhead
        exact ⟨t, by rw [hhead]⟩
    have hrne : jrest ≠ [] := by
      intro he
      rw [hd, he] at hlast
      simp at hlast
    have hlast2 : jrest.getLast? = some '}' := by
      cases jrest with
      | nil => exact absurd rfl hrne
      | cons c2 t2 => rwa [hd, List.getLast?_cons_cons] at hlast
    have hdata : (p ++ j ++ q).data = p.data ++ ('{' :: (jrest ++ q.data)) := by
      show (p.data ++ j.data) ++ q.data = _
      rw [hd, List.append_assoc, List.cons_append]
    have hne : (p ++ j ++ q) ≠ "" := by
      intro he
      have : (p ++ j ++ q).data = [] := by rw [he]
      rw [hdata] at this
      simp at this
    have hmatch : jsBraceMatch (p ++ j ++ q) = some j := by
      unfold jsBraceMatch
      rw [hdata, dropToOpen_append _ _ hp]
      have hdrop : dropToOpen ('{' :: (jrest ++ q.data)) =
          some ('{' :: (jrest ++ q.data)) := by
        simp [dropToOpen]
      rw [hdrop]
      show (match takeThruLastClose (jrest ++ q.data) with
            | some t => some (String.mk ('{' :: t))
            | none => none) = some j
      rw [takeThruLastClose_append jrest q.data hrne hlast2 hq]
      show some (String.mk ('{' :: jrest)) = some j
      rw [← hd]
    simp [parseAgentResult, jsFalsy, hne, parseAgentString, hfail, hmatch, hj]

/-- C3 witness: a valid JSON object surrounded by brace-free prose is
extracted and parsed. -/
theorem C3_normalize_string_extraction_witness :
    parseAgentResult (.str ("note: " ++ "\x7b\x22a\x22:1\x7d" ++ " end")) =
      some (Json.obj [("a", Json.num "1")]) :=
  C3_normalize_string_extraction.2 "note: " "\x7b\x22a\x22:1\x7d" " end"
    (Json.obj [("a", Json.num "1")])
    (by decide) (by decide) (by decide) (by decide) rfl rfl

/-- C9 witness: a concrete add of a fresh trimmed address to a singleton
list keeps the list duplicate-free and appends the address. -/
theorem C9_recipients_nodup_witness :
    (addEmail ["a@b.com"] "  c@d.com  ").Nodup ∧
    addEmail ["a@b.com"] "  c@d.com  " = ["a@b.com", "c@d.com"] :=
  ⟨(C9_recipients_nodup ["a@b.com"] "  c@d.com  " "x" (by decide)).1,
   ((C9_recipients_nodup ["a@b.com"] "  c@d.com  " "x" (by decide)).2.2.2.1
     (by decide) (by decide) (by decide)).trans (by decide)⟩


/-- C1: the save operation persists the settings locally whatever the
remote outcome; it performs the local persist, the delete of the old
schedule and the create of the new one in that order; the delete outcome
never influences the result; exactly when the create returns success with
a schedule, the managed identifier is adopted in memory and persisted;
when the create reports failure or rejects, the in-memory and persisted
identifiers are unchanged and an error notification is emitted. -/
theorem C1_handleSaveSettings (env : SaveEnv) (s : ControllerState) :
    ((handleSaveSettings env s).1.storedSettings = some s.settings) ∧
    ((handleSaveSettings env s).2.take 3 =
      [SaveAction.persistSettings s.settings,
       .remote (.delete s.scheduleId),
       .remote (.create MANAGER_AGENT_ID
         (buildCron s.settings.frequency s.settings.triggerTime)
         (composeAgentMessage s.settings) s.settings.timezone)]) ∧
    (∀ d, handleSaveSettings { env with deleteRes := d } s =
      handleSaveSettings env s) ∧
    (∀ r sch, env.createRes = .ok r → r.success = true →
      r.schedule = some sch →
      (handleSaveSettings env s).1.scheduleId = sch.id ∧
      (handleSaveSettings env s).1.storedScheduleId = some sch.id ∧
      (handleSaveSettings env s).1.notification =
        some ⟨.success, "Configuration saved and schedule updated"⟩) ∧
    (∀ r, env.createRes = .ok r → r.success = false →
      (handleSaveSettings env s).1.scheduleId = s.scheduleId ∧
      (handleSaveSettings env s).1.storedScheduleId = s.storedScheduleId ∧
      (handleSaveSettings env s).1.notification =
        some ⟨.error, r.error.getD "Failed to update schedule"⟩) ∧
    (env.createRes = .error () →
      (handleSaveSettings env s).1.scheduleId = s.scheduleId ∧
      (handleSaveSettings env s).1.storedScheduleId = s.storedScheduleId ∧
      (handleSaveSettings env s).1.notification =
        some ⟨.error, "Error saving configuration"⟩) := by
  refine ⟨?_, ?_, fun d => ?_, fun r sch hc hs hsch => ?_, fun r hc hs => ?_,
    fun hc => ?_⟩
  · rcases hc : env.createRes with e | r
    · simp [handleSaveSettings, hc]
    · rcases hs : r.success
      · simp [handleSaveSettings, hc, hs]
      · rcases hsch : r.schedule with _ | sch
        · simp [handleSaveSettings, hc, hs, hsch]
        · simp [handleSaveSettings, hc, hs, hsch]
  · rcases hc : env.createRes with e | r
    · simp [handleSaveSettings, hc]
    · rcases hs : r.success
      · simp [handleSaveSettings, hc, hs]
      · rcases hsch : r.schedule with _ | sch
        · simp [handleSaveSettings, hc, hs, hsch]
        · simp [handleSaveSettings, hc, hs, hsch]
  · rcases env with ⟨d0, cr⟩
    rfl
  · simp [handleSaveSettings, hc, hs, hsch]
  · simp [handleSaveSettings, hc, hs]
  · simp [handleSaveSettings, hc]

/-- C1 witness: with a concrete successful create, the new identifier
"sch-new" is adopted and persisted. -/
theorem C1_handleSaveSettings_witness :
    (handleSaveSettings saveEnvOk baseState).1.scheduleId = "sch-new" ∧
    (handleSaveSettings saveEnvOk baseState).1.storedScheduleId =
      some "sch-new" ∧
    (handleSaveSettings saveEnvOk baseState).1.storedSettings =
      some baseState.settings :=
  ⟨((C1_handleSaveSettings saveEnvOk baseState).2.2.2.1
      { success := true, schedule := some newSchedule, error := none }
      newSchedule rfl rfl rfl).1,
   ((C1_handleSaveSettings saveEnvOk baseState).2.2.2.1
      { success := true, schedule := some newSchedule, error := none }
      newSchedule rfl rfl rfl).2.1,
   (C1_handleSaveSettings saveEnvOk baseState).1⟩

/-- C7: toggling with no loaded schedule changes nothing and makes no
call; with a loaded schedule the operation first pauses when active and
resumes otherwise, then always performs a fresh get; when the fresh get
succeeds with a schedule, the displayed schedule afterwards is exactly
the fetched one (whatever its activity flag) and a success notification
is emitted; when the pause, resume or get call rejects, an error
notification is emitted and the displayed schedule is unchanged. -/
theorem C7_handleToggleSchedule (env : ToggleEnv) (s : ControllerState)
    (sch : Schedule) :
    (s.schedule = none → handleToggleSchedule env s = (s, [])) ∧
    (s.schedule = some sch →
      ((handleToggleSchedule env s).2.head? =
        some (if sch.is_active then ScheduleCall.pause s.scheduleId
          else ScheduleCall.resume s.scheduleId)) ∧
      ((if sch.is_active then env.pauseRes else env.resumeRes) = .ok () →
        (handleToggleSchedule env s).2 =
          [if sch.is_active then ScheduleCall.pause s.scheduleId
            else ScheduleCall.resume s.scheduleId,
           .get s.scheduleId]) ∧
      (∀ g sch2,
        (if sch.is_active then env.pauseRes else env.resumeRes) = .ok () →
        env.getRes = .ok g → g.success = true → g.schedule = some sch2 →
        (handleToggleSchedule env s).1.schedule = some sch2 ∧
        (handleToggleSchedule env s).1.notification = some ⟨.success,
          if sch.is_active then "Schedule paused" else "Schedule resumed"⟩) ∧
      (((if sch.is_active then env.pauseRes else env.resumeRes) = .error ()
          ∨ env.getRes = .error ()) →
        (handleToggleSchedule env s).1.notification =
          some ⟨.error, "Failed to update schedule status"⟩ ∧
        (handleToggleSchedule env s).1.schedule = s.schedule)) := by
  constructor
  · intro h
    simp [handleToggleSchedule, h]
  · intro h
    refine ⟨?_, fun ht => ?_, fun g sch2 ht hg hgs hgsch => ?_, fun herr => ?_⟩
    · rcases ht : (if sch.is_active then env.pauseRes else env.resumeRes)
        with e | u
      · simp [handleToggleSchedule, h, ht]
      · rcases hg : env.getRes with e2 | g
        · simp [handleToggleSchedule, h, ht, hg]
        · rcases hgs : g.success
          · simp [handleToggleSchedule, h, ht, hg, hgs]
          · rcases hgsch : g.schedule with _ | sch2
            · simp [handleToggleSchedule, h, ht, hg, hgs, hgsch]
            · simp [handleToggleSchedule, h, ht, hg, hgs, hgsch]
    · rcases hg : env.getRes with e2 | g
      · simp [handleToggleSchedule, h, ht, hg]
      · rcases hgs : g.success
        · simp [handleToggleSchedule, h, ht, hg, hgs]
        · rcases hgsch : g.schedule with _ | sch2
          · simp [handleToggleSchedule, h, ht, hg, hgs, hgsch]
          · simp [handleToggleSchedule, h, ht, hg, hgs, hgsch]
    · simp [handleToggleSchedule, h, ht, hg, hgs, hgsch]
    · rcases herr with ht | hg
      · simp [handleToggleSchedule, h, ht]
      · rcases ht : (if sch.is_active then env.pauseRes else env.resumeRes)
          with e | u
        · simp [handleToggleSchedule, h, ht]
        · simp [handleToggleSchedule, h, ht, hg]

/-- C7 witness: toggling the loaded active sample schedule pauses it and
the displayed schedule becomes the freshly fetched paused one. -/
theorem C7_handleToggleSchedule_witness :
    (handleToggleSchedule toggleEnvOk baseState).1.schedule =
      some pausedSchedule ∧
    (handleToggleSchedule toggleEnvOk baseState).1.notification =
      some ⟨.success, "Schedule paused"⟩ :=
  by
    have h := ((C7_handleToggleSchedule toggleEnvOk baseState
      sampleSchedule).2 rfl).2.2.1
      { success := true, schedule := some pausedSchedule } pausedSchedule
      (by rfl) rfl rfl rfl
    exact ⟨h.1, by
      have h2 := h.2
      rwa [if_pos (by rfl)] at h2⟩

/-- C10: whatever the agent call returns or throws, the check-now
operation leaves the settings, the displayed schedule, the managed
identifier (in memory and persisted), the persisted settings, the logs
and the other tracks' loading flags unchanged, and finishes with the
check-now loading, active-agent and processing indicators cleared. -/
theorem C10_handleCheckNow_frame (env : CheckEnv) (s : ControllerState) :
    (handleCheckNow env s).settings = s.settings ∧
    (handleCheckNow env s).schedule = s.schedule ∧
    (handleCheckNow env s).scheduleId = s.scheduleId ∧
    (handleCheckNow env s).storedScheduleId = s.storedScheduleId ∧
    (handleCheckNow env s).storedSettings = s.storedSettings ∧
    (handleCheckNow env s).logs = s.logs ∧
    (handleCheckNow env s).logsLoading = s.logsLoading ∧
    (handleCheckNow env s).saving = s.saving ∧
    (handleCheckNow env s).scheduleLoading = s.scheduleLoading ∧
    (handleCheckNow env s).checkNowLoading = false ∧
    (handleCheckNow env s).activeAgentId = none ∧
    (handleCheckNow env s).processing = false := by
  rcases hc : env.callRes with e | res
  · simp [handleCheckNow, hc]
  · rcases res with _ | r
    · simp [handleCheckNow, hc]
    · rcases hsid : r.session_id with _ | sid <;>
        rcases hs : r.success <;>
        rcases hresp : r.response with _ | resp <;>
        simp [handleCheckNow, hc, hsid, hs, hresp] <;>
        (repeat' split) <;> simp

end GoldAlert
